import Mathlib

/-!
Verification of the image-upscaler service (`server/index.js`, `api/upscale.ts`).

The repository's server file contains two revisions of the `/api/upscale`
endpoint: a legacy one (50 MB upload ceiling, chunk-and-composite pipeline,
explicit buffer-integrity and dimension checks) and the current one (100 MB
ceiling, progressive-downscale pipeline, targets clamped to 10000 px).
Both are embedded below; `handlerUpscale` / `processImageInChunks` are the
current revision, the `Legacy`-suffixed definitions the earlier one.

Numeric modelling: JavaScript's `Math.floor(dim * Math.sqrt(MAX_SAFE_PIXELS /
pixelCount))` is embedded with exact real-number semantics, which for naturals
`dim`, `pixelCount` equals `Nat.sqrt (dim * dim * MAX_SAFE_PIXELS / pixelCount)`
(floor division); the identity is proved below (`intermediateDim_eq_real_floor`).
Query values are embedded as the result of `parseInt(q, 10)`: `some n` for a
numeric parse, `none` for `NaN` (absent query or non-numeric string).
-/

namespace ImageUpscaler

/-- Decoded image metadata as returned by sharp's `metadata()`: width and
height in pixels.  A zero value models sharp reporting the field as zero or
absent (both are falsy in the JavaScript checks). -/
structure ImageMeta where
  width : Nat
  height : Nat
deriving Repr, DecidableEq

/-- An uploaded byte buffer, abstracted by its length and by what the sharp
decoder yields on it: `none` when the decoder throws (unsupported or corrupt
container), `some meta` when the header decodes to `meta`. -/
structure Buffer where
  len : Nat
  decode : Option ImageMeta
deriving Repr, DecidableEq

/-- A multipart file as multer presents it: buffer plus declared MIME type. -/
structure UploadFile where
  buffer : Buffer
  mimetype : String
deriving Repr, DecidableEq

/-- Target options passed to `processImageInChunks` (`width`, `height`, `dpi`
query parameters after defaulting and clamping).  They are integers: the
JavaScript code does not exclude negative parses. -/
structure Options where
  width : Int
  height : Int
  dpi : Int
deriving Repr, DecidableEq

/-- Result of a successful pipeline run: achieved dimensions, container
format, stamped DPI density, and the JPEG encode settings used. -/
structure ProcessedImage where
  width : Nat
  height : Nat
  format : String
  density : Int
  quality : Nat
  chromaSubsampling : String
  forceJpeg : Bool
  mozjpeg : Bool
deriving Repr, DecidableEq

/-- Whether the first character list is an initial segment of the second
(structurally recursive so that concrete instances evaluate). -/
def startsWithChars : List Char → List Char → Bool
  | [], _ => true
  | _ :: _, [] => false
  | p :: ps, c :: cs => p = c && startsWithChars ps cs

/-- Whether the pattern occurs as a contiguous segment of the list. -/
def occursIn (pat : List Char) : List Char → Bool
  | [] => startsWithChars pat []
  | c :: cs => startsWithChars pat (c :: cs) || occursIn pat cs

/-- JavaScript `s.startsWith(pat)`. -/
def jsStartsWith (s pat : String) : Bool := startsWithChars pat.data s.data

/-- JavaScript `s.includes(pat)` (used by the catch blocks as
`error.message.includes(...)`). -/
def containsSubstr (s pat : String) : Bool := occursIn pat.data s.data

/-- Model of the external sharp library's `resize(w, h, { fit: cover,
kernel: lanczos3, position: center })` on a successfully decoded image:
cover fit scales to fill the whole target box and crops the overflow, so the
output dimensions are exactly the requested target; sharp's parameter
validation rejects non-positive targets (message
`Expected positive integer for width ...`). -/
def sharpResize (_input : ImageMeta) (w h : Int) : Except String ImageMeta :=
  if w ≤ 0 then Except.error "Expected positive integer for width"
  else if h ≤ 0 then Except.error "Expected positive integer for height"
  else Except.ok ⟨w.toNat, h.toNat⟩

/-- `MAX_SAFE_PIXELS` from `server/index.js`: 100 million pixels. -/
def MAX_SAFE_PIXELS : Nat := 100000000

/-- `Math.floor(dim * Math.sqrt(MAX_SAFE_PIXELS / pixelCount))` under exact
real semantics: `dim * sqrt (C / pc) = sqrt (dim^2 * C / pc)`, and the floor
of the real square root of a natural is `Nat.sqrt`, so the whole expression
is `Nat.sqrt (dim * dim * C / pc)` with floor division. -/
def intermediateDim (dim pixelCount : Nat) : Nat :=
  Nat.sqrt (dim * dim * MAX_SAFE_PIXELS / pixelCount)

/-- The JPEG encode options used by the current server pipeline
(`.jpeg({ quality: 90, chromaSubsampling: 4:4:4, force: true, mozjpeg: true })`
plus `.withMetadata({ density: dpi })`), applied to a resized image. -/
def encodeJpegServer (m : ImageMeta) (dpi : Int) : ProcessedImage :=
  { width := m.width, height := m.height, format := "jpeg", density := dpi,
    quality := 90, chromaSubsampling := "4:4:4", forceJpeg := true, mozjpeg := true }

/-- Current revision of `processImageInChunks` (progressive downscale).
Metadata is read with `limitInputPixels: false, failOn: none`; if the pixel
count exceeds `MAX_SAFE_PIXELS` the image is first resampled to the
intermediate size `floor(dim * sqrt(MAX_SAFE_PIXELS / pixelCount))` on each
axis and the intermediate buffer is re-decoded; either way the (possibly
intermediate) image is then cover-resized to the requested target and encoded
as JPEG with the fixed settings. -/
def processImageInChunks (buffer : Buffer) (options : Options) :
    Except String ProcessedImage :=
  match buffer.decode with
  | none => Except.error "Input buffer contains unsupported image format"
  | some metadata =>
    let pixelCount := metadata.width * metadata.height
    if pixelCount > MAX_SAFE_PIXELS then
      let intermediateWidth := intermediateDim metadata.width pixelCount
      let intermediateHeight := intermediateDim metadata.height pixelCount
      match sharpResize metadata (intermediateWidth : Int) (intermediateHeight : Int) with
      | Except.error e => Except.error e
      | Except.ok intermediate =>
        match sharpResize intermediate options.width options.height with
        | Except.error e => Except.error e
        | Except.ok finalMeta => Except.ok (encodeJpegServer finalMeta options.dpi)
    else
      match sharpResize metadata options.width options.height with
      | Except.error e => Except.error e
      | Except.ok finalMeta => Except.ok (encodeJpegServer finalMeta options.dpi)

/-- `MAX_FILE_SIZE` of the current revision: 100 MB. -/
def MAX_FILE_SIZE : Nat := 100 * 1024 * 1024

/-- `MAX_FILE_SIZE` of the legacy revision: 50 MB. -/
def MAX_FILE_SIZE_LEGACY : Nat := 50 * 1024 * 1024

/-- Outcome of the multer upload middleware: the `fileFilter` rejects
declared MIME types that do not start with `image/` (typed
`UnsupportedMediaType` in the specification), the `fileSize` limit rejects
larger buffers (`PayloadTooLarge`, multer code `LIMIT_FILE_SIZE`); the filter
runs when the file header arrives, before the body is streamed, so it fires
before the size limit; a missing file field yields `noFile`. -/
inductive MulterOutcome where
  | noFile : MulterOutcome
  | unsupportedMediaType : MulterOutcome
  | payloadTooLarge : MulterOutcome
  | accepted : UploadFile → MulterOutcome
deriving Repr, DecidableEq

/-- The multer stage with a given size ceiling. -/
def multer (maxFileSize : Nat) (file : Option UploadFile) : MulterOutcome :=
  match file with
  | none => MulterOutcome.noFile
  | some f =>
    if ¬ jsStartsWith f.mimetype "image/" then MulterOutcome.unsupportedMediaType
    else if f.buffer.len > maxFileSize then MulterOutcome.payloadTooLarge
    else MulterOutcome.accepted f

/-- JavaScript `x || d` applied to a `parseInt(q, 10)` result: `NaN`
(modelled `none`) and `0` are falsy and replaced by the default `d`. -/
def jsOr (v : Option Int) (d : Int) : Int :=
  match v with
  | none => d
  | some n => if n = 0 then d else n

/-- An `/api/upscale` request: the multipart file (if any) and the parse
results of the `width`, `height` and `dpi` query parameters. -/
structure UpscaleRequest where
  file : Option UploadFile
  qWidth : Option Int
  qHeight : Option Int
  qDpi : Option Int
deriving Repr, DecidableEq

/-- An HTTP response of the endpoint: status, the `error` and `details`
fields of a JSON error body (`none` on success), the `X-Image-Width`,
`X-Image-Height` and `X-Image-DPI` headers (`none` on failure), and whether
the handler reached a sharp decode of the uploaded buffer. -/
structure UpscaleResponse where
  status : Nat
  errorName : Option String
  details : Option String
  xWidth : Option Nat
  xHeight : Option Nat
  xDpi : Option Int
  decodeAttempted : Bool
deriving Repr, DecidableEq

/-- The catch block of the current revision: maps a thrown error message to
the HTTP response (unsupported format and pixel-limit messages to 400, memory
messages to 500 Out of memory, everything else to 500 Processing failed). -/
def catchResponse (msg : String) : UpscaleResponse :=
  if containsSubstr msg "Input buffer contains unsupported image format" then
    { status := 400, errorName := some "Unsupported image format",
      details := some "Please upload a valid JPEG, PNG, WebP, or TIFF image",
      xWidth := none, xHeight := none, xDpi := none, decodeAttempted := true }
  else if containsSubstr msg "Input image exceeds pixel limit" then
    { status := 400, errorName := some "Image too large",
      details := some "The image dimensions are too large. Try reducing the image size before uploading.",
      xWidth := none, xHeight := none, xDpi := none, decodeAttempted := true }
  else if containsSubstr msg "memory" then
    { status := 500, errorName := some "Out of memory",
      details := some "The server ran out of memory while processing this image. Try a smaller image.",
      xWidth := none, xHeight := none, xDpi := none, decodeAttempted := true }
  else
    { status := 500, errorName := some "Processing failed", details := some msg,
      xWidth := none, xHeight := none, xDpi := none, decodeAttempted := true }

/-- The current `/api/upscale` handler: multer rejections map to 400; the
effective target is `Math.min(10000, parseInt(q, 10) || default)` for width
(default 7200) and height (default 10800) and `parseInt(q, 10) || 300` for
dpi; then `processImageInChunks` runs, success producing a 200 with the
achieved dimensions in headers, failure going through the catch mapping. -/
def handlerUpscale (r : UpscaleRequest) : UpscaleResponse :=
  match multer MAX_FILE_SIZE r.file with
  | MulterOutcome.unsupportedMediaType =>
    { status := 400, errorName := some "Upload failed",
      details := some "Only image files are allowed",
      xWidth := none, xHeight := none, xDpi := none, decodeAttempted := false }
  | MulterOutcome.payloadTooLarge =>
    { status := 400, errorName := some "File too large",
      details := some ("Maximum file size is " ++ toString (MAX_FILE_SIZE / (1024 * 1024)) ++ "MB"),
      xWidth := none, xHeight := none, xDpi := none, decodeAttempted := false }
  | MulterOutcome.noFile =>
    { status := 400, errorName := some "No file uploaded",
      details := some "Please select an image file",
      xWidth := none, xHeight := none, xDpi := none, decodeAttempted := false }
  | MulterOutcome.accepted f =>
    let width := min 10000 (jsOr r.qWidth 7200)
    let height := min 10000 (jsOr r.qHeight 10800)
    let dpi := jsOr r.qDpi 300
    match processImageInChunks f.buffer ⟨width, height, dpi⟩ with
    | Except.ok img =>
      { status := 200, errorName := none, details := none,
        xWidth := some img.width, xHeight := some img.height, xDpi := some dpi,
        decodeAttempted := true }
    | Except.error msg => catchResponse msg

/-- The JPEG encode options of the legacy server pipeline (same settings as
the current one: quality 90, 4:4:4, force, mozjpeg). -/
def encodeJpegLegacy (m : ImageMeta) (dpi : Int) : ProcessedImage :=
  { width := m.width, height := m.height, format := "jpeg", density := dpi,
    quality := 90, chromaSubsampling := "4:4:4", forceJpeg := true, mozjpeg := true }

/-- Legacy `processImageInChunks`: opens the buffer with
`limitInputPixels: 32768^2`; small images (both axes at most the 5000 px
chunk size) are resized directly, larger ones are extracted in 5000 px tiles,
composited onto a white canvas of the original size, and that composite is
resized — both branches end in the same cover resize to the target and the
same JPEG encode, so the observable result is the resize output; accessing
pixel data of an image above the pixel limit throws
`Input image exceeds pixel limit`. -/
def processImageInChunksLegacy (buffer : Buffer) (options : Options) :
    Except String ProcessedImage :=
  match buffer.decode with
  | none => Except.error "Input buffer contains unsupported image format"
  | some metadata =>
    if metadata.width * metadata.height > 32768 * 32768 then
      Except.error "Input image exceeds pixel limit"
    else
      match sharpResize metadata options.width options.height with
      | Except.error e => Except.error e
      | Except.ok finalMeta => Except.ok (encodeJpegLegacy finalMeta options.dpi)

/-- The catch block of the legacy revision: only the unsupported-format and
pixel-limit messages map to 400; every other thrown message (including the
buffer-integrity and dimension checks below) falls through to the generic
500 Processing failed branch. -/
def catchResponseLegacy (msg : String) : UpscaleResponse :=
  if containsSubstr msg "Input buffer contains unsupported image format" then
    { status := 400, errorName := some "Unsupported image format",
      details := some "Please upload a valid image file",
      xWidth := none, xHeight := none, xDpi := none, decodeAttempted := true }
  else if containsSubstr msg "Input image exceeds pixel limit" then
    { status := 400, errorName := some "Image too large",
      details := some "The image dimensions exceed the maximum allowed size",
      xWidth := none, xHeight := none, xDpi := none, decodeAttempted := true }
  else
    { status := 500, errorName := some "Processing failed", details := some msg,
      xWidth := none, xHeight := none, xDpi := none, decodeAttempted := true }

/-- Marks the responses of `catchResponseLegacy` with whether a decode of the
uploaded buffer had been attempted when the error was thrown. -/
def withDecodeAttempted (resp : UpscaleResponse) (b : Bool) : UpscaleResponse :=
  { resp with decodeAttempted := b }

/-- Legacy `/api/upscale` handler.  Differences from the current revision:
any multer error maps to a generic 400 `Upload failed` (no `LIMIT_FILE_SIZE`
branch, ceiling 50 MB); targets are `parseInt(q || default, 10)` with no
clamp (modelled on queries that are absent or parse to an integer); an empty
buffer throws `Invalid image buffer` before any decode; the buffer is then
decoded (`metadata()` reads the header only, so the default pixel limit does
not fire here) and a zero or absent width or height throws
`Invalid image dimensions`; thrown messages go through the legacy catch
mapping, where both of these checks land in the 500 branch. -/
def handlerUpscaleLegacy (r : UpscaleRequest) : UpscaleResponse :=
  match multer MAX_FILE_SIZE_LEGACY r.file with
  | MulterOutcome.unsupportedMediaType =>
    { status := 400, errorName := some "Upload failed",
      details := some "Only image files are allowed",
      xWidth := none, xHeight := none, xDpi := none, decodeAttempted := false }
  | MulterOutcome.payloadTooLarge =>
    { status := 400, errorName := some "Upload failed",
      details := some "File too large",
      xWidth := none, xHeight := none, xDpi := none, decodeAttempted := false }
  | MulterOutcome.noFile =>
    { status := 400, errorName := some "No image provided",
      details := some "Please select an image to upload",
      xWidth := none, xHeight := none, xDpi := none, decodeAttempted := false }
  | MulterOutcome.accepted f =>
    let width := (r.qWidth.getD 7200 : Int)
    let height := (r.qHeight.getD 10800 : Int)
    let dpi := (r.qDpi.getD 300 : Int)
    if f.buffer.len = 0 then
      withDecodeAttempted (catchResponseLegacy "Invalid image buffer") false
    else
      match f.buffer.decode with
      | none =>
        catchResponseLegacy "Input buffer contains unsupported image format"
      | some metadata =>
        if metadata.width = 0 ∨ metadata.height = 0 then
          catchResponseLegacy "Invalid image dimensions"
        else
          match processImageInChunksLegacy f.buffer ⟨width, height, dpi⟩ with
          | Except.ok img =>
            { status := 200, errorName := none, details := none,
              xWidth := some img.width, xHeight := some img.height,
              xDpi := some dpi, decodeAttempted := true }
          | Except.error msg => catchResponseLegacy msg

/-- The Vercel handler of `api/upscale.ts`: decodes, rejects zero or absent
dimensions, then resizes once (no clamp, no downscale path) and encodes as
JPEG with quality 95, 4:4:4, forced container, no mozjpeg, density `dpi`. -/
def apiProcess (buffer : Buffer) (w h dpi : Int) : Except String ProcessedImage :=
  match buffer.decode with
  | none => Except.error "Input buffer contains unsupported image format"
  | some metadata =>
    if metadata.width = 0 ∨ metadata.height = 0 then
      Except.error "Invalid image dimensions"
    else
      match sharpResize metadata w h with
      | Except.error e => Except.error e
      | Except.ok finalMeta =>
        Except.ok { width := finalMeta.width, height := finalMeta.height,
                    format := "jpeg", density := dpi, quality := 95,
                    chromaSubsampling := "4:4:4", forceJpeg := true, mozjpeg := false }

/-- The output of a successful server-pipeline run on a small image with
target 7200 by 10800 and DPI 300 (used to state concrete instances). -/
def sampleServerOut : ProcessedImage :=
  { width := 7200, height := 10800, format := "jpeg", density := 300,
    quality := 90, chromaSubsampling := "4:4:4", forceJpeg := true,
    mozjpeg := true }

/-- The output of a successful Vercel-handler run on a small image with
target 7200 by 10800 and DPI 300. -/
def sampleApiOut : ProcessedImage :=
  { width := 7200, height := 10800, format := "jpeg", density := 300,
    quality := 95, chromaSubsampling := "4:4:4", forceJpeg := true,
    mozjpeg := false }

/-! Helper lemmas. -/

/-- Decidable equality on `Except`, so that concrete pipeline runs can be
settled by `decide`. -/
instance {ε α : Type} [DecidableEq ε] [DecidableEq α] : DecidableEq (Except ε α) := fun x y =>
  match x, y with
  | Except.ok a, Except.ok b =>
    match decEq a b with
    | isTrue h => isTrue (by rw [h])
    | isFalse h => isFalse fun hc => h (Except.ok.inj hc)
  | Except.error a, Except.error b =>
    match decEq a b with
    | isTrue h => isTrue (by rw [h])
    | isFalse h => isFalse fun hc => h (Except.error.inj hc)
  | Except.ok _, Except.error _ => isFalse fun hc => Except.noConfusion hc
  | Except.error _, Except.ok _ => isFalse fun hc => Except.noConfusion hc

/-- A `Nat.sqrt` value can be certified by squaring. -/
lemma nat_sqrt_eq {x k : Nat} (h1 : k * k ≤ x) (h2 : x < (k + 1) * (k + 1)) :
    Nat.sqrt x = k :=
  (Nat.eq_sqrt.mpr ⟨h1, h2⟩).symm

/-- The floor of a real square root of a nonnegative real is the `Nat.sqrt`
of its floor. -/
lemma nat_floor_real_sqrt (x : ℝ) (hx : 0 ≤ x) :
    ⌊Real.sqrt x⌋₊ = Nat.sqrt ⌊x⌋₊ := by
  have h1 : (Nat.sqrt ⌊x⌋₊ : ℝ) ≤ Real.sqrt x :=
    le_trans Real.nat_sqrt_le_real_sqrt (Real.sqrt_le_sqrt (Nat.floor_le hx))
  have h2 : Real.sqrt x < (Nat.sqrt ⌊x⌋₊ : ℝ) + 1 := by
    have hx1 : x < (⌊x⌋₊ : ℝ) + 1 := Nat.lt_floor_add_one x
    have hlt : Real.sqrt x < Real.sqrt ((⌊x⌋₊ : ℝ) + 1) := Real.sqrt_lt_sqrt hx hx1
    refine hlt.trans_le ?_
    have hsq : ((⌊x⌋₊ : ℝ) + 1) ≤ ((Nat.sqrt ⌊x⌋₊ : ℝ) + 1) ^ 2 := by
      exact_mod_cast Nat.succ_le_succ_sqrt' ⌊x⌋₊
    calc Real.sqrt ((⌊x⌋₊ : ℝ) + 1)
        ≤ Real.sqrt (((Nat.sqrt ⌊x⌋₊ : ℝ) + 1) ^ 2) := Real.sqrt_le_sqrt hsq
      _ = (Nat.sqrt ⌊x⌋₊ : ℝ) + 1 := Real.sqrt_sq (by positivity)
  rw [Nat.floor_eq_iff (Real.sqrt_nonneg x)]
  exact ⟨h1, h2⟩

/-- Justification of the exact-real embedding of the intermediate-dimension
formula: `Nat.sqrt (dim * dim * MAX_SAFE_PIXELS / pixelCount)` is precisely
`Math.floor(dim * Math.sqrt(MAX_SAFE_PIXELS / pixelCount))` computed with
exact real square root and division. -/
lemma intermediateDim_eq_real_floor (dim pc : Nat) :
    intermediateDim dim pc =
      ⌊(dim : ℝ) * Real.sqrt ((MAX_SAFE_PIXELS : ℝ) / (pc : ℝ))⌋₊ := by
  have hprod : (dim : ℝ) * Real.sqrt ((MAX_SAFE_PIXELS : ℝ) / (pc : ℝ)) =
      Real.sqrt (((dim * dim * MAX_SAFE_PIXELS : ℕ) : ℝ) / ((pc : ℕ) : ℝ)) := by
    rw [show ((dim * dim * MAX_SAFE_PIXELS : ℕ) : ℝ) / ((pc : ℕ) : ℝ) =
        ((dim : ℝ) * (dim : ℝ)) * ((MAX_SAFE_PIXELS : ℝ) / (pc : ℝ)) from by push_cast; ring]
    rw [Real.sqrt_mul (by positivity) ((MAX_SAFE_PIXELS : ℝ) / (pc : ℝ))]
    rw [Real.sqrt_mul_self (by positivity : (0 : ℝ) ≤ (dim : ℝ))]
  rw [hprod, nat_floor_real_sqrt _ (by positivity), Nat.floor_div_nat, Nat.floor_natCast]
  rfl

/-- The two intermediate dimensions of the oversized path multiply to at most
the pixel ceiling. -/
lemma intermediateDim_mul_le (w h : Nat) (hpos : 0 < w * h) :
    intermediateDim w (w * h) * intermediateDim h (w * h) ≤ MAX_SAFE_PIXELS := by
  unfold intermediateDim
  set C := MAX_SAFE_PIXELS with hC
  set a := w * w * C / (w * h) with ha
  set b := h * h * C / (w * h) with hb
  have hab : a * b ≤ C * C := by
    have h1 : a * b ≤ w * w * C * (h * h * C) / (w * h * (w * h)) :=
      Nat.div_mul_div_le _ _ _ _
    have h2 : w * w * C * (h * h * C) = w * h * (w * h) * (C * C) := by ring
    have h3 : w * h * (w * h) * (C * C) / (w * h * (w * h)) = C * C :=
      Nat.mul_div_cancel_left _ (Nat.mul_pos hpos hpos)
    calc a * b ≤ w * w * C * (h * h * C) / (w * h * (w * h)) := h1
      _ = C * C := by rw [h2, h3]
  have hsq : Nat.sqrt a * Nat.sqrt b ≤ Nat.sqrt (a * b) := by
    refine Nat.le_sqrt.mpr ?_
    calc Nat.sqrt a * Nat.sqrt b * (Nat.sqrt a * Nat.sqrt b)
        = Nat.sqrt a * Nat.sqrt a * (Nat.sqrt b * Nat.sqrt b) := by ring
      _ ≤ a * b := Nat.mul_le_mul (Nat.sqrt_le a) (Nat.sqrt_le b)
  exact hsq.trans ((Nat.sqrt_le_sqrt hab).trans_eq (Nat.sqrt_eq C))

/-- On the oversized path the downscale factor is below one: each
intermediate dimension is strictly smaller than the original one. -/
lemma intermediateDim_lt_self (d pc : Nat) (hd : 0 < d)
    (hbig : MAX_SAFE_PIXELS < pc) : intermediateDim d pc < d := by
  have hpc : 0 < pc := lt_of_le_of_lt (Nat.zero_le _) hbig
  unfold intermediateDim
  refine Nat.sqrt_lt.mpr ?_
  rw [Nat.div_lt_iff_lt_mul hpc]
  exact mul_lt_mul_of_pos_left hbig (Nat.mul_pos hd hd)

/-- The 12000 by 12000 scenario: each intermediate axis is 10000. -/
lemma intermediateDim_12000 : intermediateDim 12000 (12000 * 12000) = 10000 := by
  unfold intermediateDim
  rw [show 12000 * 12000 * MAX_SAFE_PIXELS / (12000 * 12000) = 100000000 from by
    unfold MAX_SAFE_PIXELS; norm_num]
  exact nat_sqrt_eq (by norm_num) (by norm_num)

/-- The multer stage accepts a file with an `image/` MIME type within the
size ceiling. -/
lemma multer_accepts (maxFS : Nat) (f : UploadFile)
    (hm : jsStartsWith f.mimetype "image/" = true) (hs : f.buffer.len ≤ maxFS) :
    multer maxFS (some f) = MulterOutcome.accepted f := by
  simp [multer, hm, Nat.not_lt.mpr hs]

/-- Direct path of the current pipeline: a decodable image within the pixel
ceiling resized to a positive target yields exactly the target dimensions. -/
lemma processImageInChunks_direct (b : Buffer) (meta : ImageMeta) (o : Options)
    (hdec : b.decode = some meta)
    (hsmall : meta.width * meta.height ≤ MAX_SAFE_PIXELS)
    (hw : 0 < o.width) (hh : 0 < o.height) :
    processImageInChunks b o =
      Except.ok (encodeJpegServer ⟨o.width.toNat, o.height.toNat⟩ o.dpi) := by
  unfold processImageInChunks
  rw [hdec]
  simp [Nat.not_lt.mpr hsmall, sharpResize, not_le.mpr hw, not_le.mpr hh]

/-- Oversized path of the current pipeline: when both intermediate dimensions
are positive and the target is positive, the run succeeds with exactly the
target dimensions. -/
lemma processImageInChunks_oversized (b : Buffer) (meta : ImageMeta) (o : Options)
    (hdec : b.decode = some meta)
    (hbig : MAX_SAFE_PIXELS < meta.width * meta.height)
    (hiw : 0 < intermediateDim meta.width (meta.width * meta.height))
    (hih : 0 < intermediateDim meta.height (meta.width * meta.height))
    (hw : 0 < o.width) (hh : 0 < o.height) :
    processImageInChunks b o =
      Except.ok (encodeJpegServer ⟨o.width.toNat, o.height.toNat⟩ o.dpi) := by
  unfold processImageInChunks
  rw [hdec]
  have hiw' : ¬ ((intermediateDim meta.width (meta.width * meta.height) : Int) ≤ 0) := by
    exact_mod_cast not_le.mpr hiw
  have hih' : ¬ ((intermediateDim meta.height (meta.width * meta.height) : Int) ≤ 0) := by
    exact_mod_cast not_le.mpr hih
  simp [hbig, sharpResize, hiw', hih', not_le.mpr hw, not_le.mpr hh]

/-! Claim theorems. -/

/-- C1, counterexample. A valid 1-by-1 image with requested target
7200 by 10800 does not yield 7200 by 10800: the handler clamps the height to
10000, so the achieved output is 7200 by 10000. -/
theorem requested_10800_yields_10000 :
    (handlerUpscale ⟨some ⟨⟨1, some ⟨1, 1⟩⟩, "image/png"⟩,
        some 7200, some 10800, some 300⟩).xWidth = some 7200 ∧
    (handlerUpscale ⟨some ⟨⟨1, some ⟨1, 1⟩⟩, "image/png"⟩,
        some 7200, some 10800, some 300⟩).xHeight = some 10000 ∧
    (10000 : Nat) ≠ 10800 := by
  decide

/-- C1, amended. For every accepted image whose decoded pixel count is at
most `MAX_SAFE_PIXELS` and whose effective (defaulted and clamped) target
width and height are positive, the request succeeds and the achieved output
dimensions are exactly the effective target — which is the requested target
clamped to at most 10000 on each axis; in particular a requested height of
10800 is achieved as 10000. -/
theorem clamped_target_dims_exact (f : UploadFile) (meta : ImageMeta)
    (qw qh qd : Option Int)
    (hm : jsStartsWith f.mimetype "image/" = true)
    (hs : f.buffer.len ≤ MAX_FILE_SIZE)
    (hdec : f.buffer.decode = some meta)
    (hsmall : meta.width * meta.height ≤ MAX_SAFE_PIXELS)
    (hw : 0 < min 10000 (jsOr qw 7200))
    (hh : 0 < min 10000 (jsOr qh 10800)) :
    (handlerUpscale ⟨some f, qw, qh, qd⟩).status = 200 ∧
    (handlerUpscale ⟨some f, qw, qh, qd⟩).xWidth =
      some ((min 10000 (jsOr qw 7200)).toNat) ∧
    (handlerUpscale ⟨some f, qw, qh, qd⟩).xHeight =
      some ((min 10000 (jsOr qh 10800)).toNat) := by
  have hm' := multer_accepts MAX_FILE_SIZE f hm hs
  have hrun := processImageInChunks_direct f.buffer meta
    ⟨min 10000 (jsOr qw 7200), min 10000 (jsOr qh 10800), jsOr qd 300⟩
    hdec hsmall hw hh
  simp only [handlerUpscale, hm', hrun, encodeJpegServer]
  exact ⟨trivial, trivial, trivial⟩

/-- C1, witness: a 1-by-1 image requested at 7200 by 10800 succeeds with
achieved dimensions 7200 by 10000. -/
theorem clamped_target_dims_exact_witness :
    (handlerUpscale ⟨some ⟨⟨1, some ⟨1, 1⟩⟩, "image/png"⟩,
        some 7200, some 10800, some 300⟩).status = 200 ∧
    (handlerUpscale ⟨some ⟨⟨1, some ⟨1, 1⟩⟩, "image/png"⟩,
        some 7200, some 10800, some 300⟩).xWidth =
      some ((min 10000 (jsOr (some 7200) 7200)).toNat) ∧
    (handlerUpscale ⟨some ⟨⟨1, some ⟨1, 1⟩⟩, "image/png"⟩,
        some 7200, some 10800, some 300⟩).xHeight =
      some ((min 10000 (jsOr (some 10800) 10800)).toNat) :=
  clamped_target_dims_exact ⟨⟨1, some ⟨1, 1⟩⟩, "image/png"⟩ ⟨1, 1⟩
    (some 7200) (some 10800) (some 300)
    (by decide) (by decide) rfl (by decide) (by decide) (by decide)

/-- C2, counterexample. An input with pixel count above the ceiling does not
always produce a final output matching the target: a decoded 1 by 200000000
image (200 million pixels, oversized path) floors its intermediate width to
0 and the pipeline fails with a resize error instead of succeeding. -/
theorem oversized_degenerate_fails :
    MAX_SAFE_PIXELS < 1 * 200000000 ∧
    processImageInChunks ⟨50, some ⟨1, 200000000⟩⟩ ⟨7200, 10800, 300⟩ =
      Except.error "Expected positive integer for width" := by
  decide

/-- C2, amended. For every decoded image with pixel count above
`MAX_SAFE_PIXELS` the pipeline takes the oversized path: the downscale ratio
is below one (each intermediate axis is strictly smaller than the original),
the intermediate pixel count never exceeds the ceiling, and — provided both
intermediate dimensions are at least 1 and the target dimensions are
positive — the final output exactly matches the target passed to the
pipeline; for a 12000 by 12000 input each intermediate axis is
`floor(12000 * sqrt(100000000 / 144000000))` = 10000.  (Degenerate aspect
ratios flooring an intermediate axis to 0 instead fail, see the
counterexample.) -/
theorem oversized_path_properties (b : Buffer) (meta : ImageMeta)
    (w h dpi : Int)
    (hdec : b.decode = some meta)
    (hbig : MAX_SAFE_PIXELS < meta.width * meta.height)
    (hiw : 0 < intermediateDim meta.width (meta.width * meta.height))
    (hih : 0 < intermediateDim meta.height (meta.width * meta.height))
    (hw : 0 < w) (hh : 0 < h) :
    (MAX_SAFE_PIXELS : ℚ) / ((meta.width * meta.height : Nat) : ℚ) < 1 ∧
    intermediateDim meta.width (meta.width * meta.height) < meta.width ∧
    intermediateDim meta.height (meta.width * meta.height) < meta.height ∧
    intermediateDim meta.width (meta.width * meta.height) *
      intermediateDim meta.height (meta.width * meta.height) ≤ MAX_SAFE_PIXELS ∧
    processImageInChunks b ⟨w, h, dpi⟩ =
      Except.ok { width := w.toNat, height := h.toNat, format := "jpeg",
                  density := dpi, quality := 90, chromaSubsampling := "4:4:4",
                  forceJpeg := true, mozjpeg := true } ∧
    intermediateDim 12000 (12000 * 12000) = 10000 := by
  have hpc : 0 < meta.width * meta.height := lt_of_le_of_lt (Nat.zero_le _) hbig
  have hwpos : 0 < meta.width := by
    rcases Nat.eq_zero_or_pos meta.width with h0 | h0
    · rw [h0] at hpc; simp at hpc
    · exact h0
  have hhpos : 0 < meta.height := by
    rcases Nat.eq_zero_or_pos meta.height with h0 | h0
    · rw [h0] at hpc; simp at hpc
    · exact h0
  refine ⟨?_, ?_, ?_, ?_, ?_, intermediateDim_12000⟩
  · rw [div_lt_one (by exact_mod_cast hpc)]
    exact_mod_cast hbig
  · exact intermediateDim_lt_self meta.width _ hwpos hbig
  · exact intermediateDim_lt_self meta.height _ hhpos hbig
  · exact intermediateDim_mul_le meta.width meta.height hpc
  · exact processImageInChunks_oversized b meta ⟨w, h, dpi⟩ hdec hbig hiw hih hw hh

/-- C2, witness: the 12000 by 12000 scenario with target 7200 by 10800 and
DPI 300 takes the oversized path, has intermediate axes 10000 with
intermediate pixel count within the ceiling, and succeeds with exactly
7200 by 10800. -/
theorem oversized_path_properties_witness :
    (MAX_SAFE_PIXELS : ℚ) / (((12000 : Nat) * 12000 : Nat) : ℚ) < 1 ∧
    intermediateDim 12000 (12000 * 12000) < 12000 ∧
    intermediateDim 12000 (12000 * 12000) < 12000 ∧
    intermediateDim 12000 (12000 * 12000) *
      intermediateDim 12000 (12000 * 12000) ≤ MAX_SAFE_PIXELS ∧
    processImageInChunks ⟨50, some ⟨12000, 12000⟩⟩ ⟨7200, 10800, 300⟩ =
      Except.ok { width := (7200 : Int).toNat, height := (10800 : Int).toNat,
                  format := "jpeg", density := 300, quality := 90,
                  chromaSubsampling := "4:4:4", forceJpeg := true,
                  mozjpeg := true } ∧
    intermediateDim 12000 (12000 * 12000) = 10000 :=
  oversized_path_properties ⟨50, some ⟨12000, 12000⟩⟩ ⟨12000, 12000⟩
    7200 10800 300 rfl (by decide)
    (by rw [intermediateDim_12000]; norm_num)
    (by rw [intermediateDim_12000]; norm_num)
    (by decide) (by decide)

/-- Evaluation of the legacy catch mapping on the dimension-check message:
it matches neither 400 pattern and lands in the generic 500 branch. -/
lemma catchLegacy_invalid_dims :
    catchResponseLegacy "Invalid image dimensions" =
      { status := 500, errorName := some "Processing failed",
        details := some "Invalid image dimensions",
        xWidth := none, xHeight := none, xDpi := none, decodeAttempted := true } := by
  decide

/-- Evaluation of the legacy catch mapping on the buffer-integrity message
(thrown before any decode): generic 500 branch. -/
lemma catchLegacy_invalid_buffer :
    withDecodeAttempted (catchResponseLegacy "Invalid image buffer") false =
      { status := 500, errorName := some "Processing failed",
        details := some "Invalid image buffer",
        xWidth := none, xHeight := none, xDpi := none, decodeAttempted := false } := by
  decide

/-- C3, counterexample. A decodable image whose decoded width is zero is
answered with HTTP 500 (generic Processing failed), not with the 400 the
claim requires. -/
theorem zero_width_gives_500 :
    handlerUpscaleLegacy ⟨some ⟨⟨5, some ⟨0, 100⟩⟩, "image/png"⟩, none, none, none⟩ =
      { status := 500, errorName := some "Processing failed",
        details := some "Invalid image dimensions",
        xWidth := none, xHeight := none, xDpi := none, decodeAttempted := true } ∧
    (500 : Nat) ≠ 400 := by
  decide

/-- C3, amended. Whenever the decoded width or height is zero or absent, the
request fails with the `Invalid image dimensions` error, but the wrapper
surfaces it as HTTP 500 through the generic Processing failed branch — not
as 400: the catch mapping has no branch for this message. -/
theorem invalid_dims_surfaced_as_500 (f : UploadFile) (meta : ImageMeta)
    (qw qh qd : Option Int)
    (hm : jsStartsWith f.mimetype "image/" = true)
    (hs : f.buffer.len ≤ MAX_FILE_SIZE_LEGACY)
    (hne : ¬ f.buffer.len = 0)
    (hdec : f.buffer.decode = some meta)
    (hzero : meta.width = 0 ∨ meta.height = 0) :
    handlerUpscaleLegacy ⟨some f, qw, qh, qd⟩ =
      { status := 500, errorName := some "Processing failed",
        details := some "Invalid image dimensions",
        xWidth := none, xHeight := none, xDpi := none, decodeAttempted := true } := by
  have hm' := multer_accepts MAX_FILE_SIZE_LEGACY f hm hs
  simp only [handlerUpscaleLegacy, hm', hdec]
  rw [if_neg hne, if_pos hzero]
  exact catchLegacy_invalid_dims

/-- C3, witness: a non-empty buffer decoding to a 0 by 100 image is answered
with the 500 Processing failed response. -/
theorem invalid_dims_surfaced_as_500_witness :
    handlerUpscaleLegacy ⟨some ⟨⟨5, some ⟨0, 100⟩⟩, "image/jpeg"⟩, none, none, none⟩ =
      { status := 500, errorName := some "Processing failed",
        details := some "Invalid image dimensions",
        xWidth := none, xHeight := none, xDpi := none, decodeAttempted := true } :=
  invalid_dims_surfaced_as_500 ⟨⟨5, some ⟨0, 100⟩⟩, "image/jpeg"⟩ ⟨0, 100⟩
    none none none (by decide) (by decide) (by decide) rfl (Or.inl rfl)

/-- C4, counterexample. A zero-length buffer is rejected before any decode,
but with HTTP 500 (generic Processing failed), not the 400 the claim
requires. -/
theorem empty_buffer_gives_500 :
    handlerUpscaleLegacy ⟨some ⟨⟨0, none⟩, "image/png"⟩, none, none, none⟩ =
      { status := 500, errorName := some "Processing failed",
        details := some "Invalid image buffer",
        xWidth := none, xHeight := none, xDpi := none, decodeAttempted := false } ∧
    (500 : Nat) ≠ 400 := by
  decide

/-- C4, amended. Every upload whose buffer length is zero is rejected by the
buffer-integrity check before any decoding is attempted
(`decodeAttempted = false`), but the rejection is surfaced as HTTP 500
through the generic Processing failed branch, not as 400. -/
theorem empty_buffer_rejected_before_decode (f : UploadFile)
    (qw qh qd : Option Int)
    (hm : jsStartsWith f.mimetype "image/" = true)
    (hlen : f.buffer.len = 0) :
    handlerUpscaleLegacy ⟨some f, qw, qh, qd⟩ =
      { status := 500, errorName := some "Processing failed",
        details := some "Invalid image buffer",
        xWidth := none, xHeight := none, xDpi := none, decodeAttempted := false } := by
  have hs : f.buffer.len ≤ MAX_FILE_SIZE_LEGACY := by
    rw [hlen]; exact Nat.zero_le _
  have hm' := multer_accepts MAX_FILE_SIZE_LEGACY f hm hs
  simp only [handlerUpscaleLegacy, hm']
  rw [if_pos hlen]
  exact catchLegacy_invalid_buffer

/-- C4, witness: an empty `image/png` upload is answered 500 with no decode
attempted. -/
theorem empty_buffer_rejected_before_decode_witness :
    handlerUpscaleLegacy ⟨some ⟨⟨0, none⟩, "image/png"⟩, none, none, none⟩ =
      { status := 500, errorName := some "Processing failed",
        details := some "Invalid image buffer",
        xWidth := none, xHeight := none, xDpi := none, decodeAttempted := false } :=
  empty_buffer_rejected_before_decode ⟨⟨0, none⟩, "image/png"⟩ none none none
    (by decide) rfl

/-- C5, counterexample. With the height query omitted the handler's effective
height is 10000, not the claimed default 10800: the default is applied before
the 10000 clamp. -/
theorem omitted_height_is_10000 :
    min (10000 : Int) (jsOr none 10800) = 10000 ∧
    (handlerUpscale ⟨some ⟨⟨10, some ⟨1, 1⟩⟩, "image/png"⟩,
        none, none, none⟩).xHeight = some 10000 ∧
    (10000 : Nat) ≠ 10800 := by
  decide

/-- C5, amended. The effective target is computed by substituting the
defaults 7200 (width), 10800 (height) and 300 (DPI) for omitted parameters
and then clamping width and height to at most 10000; since the height
default exceeds the clamp, the effective height for an omitted parameter is
10000 (width 7200 and DPI 300 are unaffected), and every effective width and
height is at most 10000. -/
theorem target_defaults_with_clamp (qw qh : Option Int) :
    jsOr none 7200 = 7200 ∧ jsOr none 10800 = 10800 ∧ jsOr none 300 = 300 ∧
    min (10000 : Int) (jsOr none 7200) = 7200 ∧
    min (10000 : Int) (jsOr none 10800) = 10000 ∧
    min (10000 : Int) (jsOr qw 7200) ≤ 10000 ∧
    min (10000 : Int) (jsOr qh 10800) ≤ 10000 :=
  ⟨by decide, by decide, by decide, by decide, by decide,
    min_le_left _ _, min_le_left _ _⟩

/-- Inversion for the current pipeline: every successful run carries the
fixed JPEG encode settings of the server (quality 90, 4:4:4, forced
container, mozjpeg) and the requested DPI as density. -/
lemma processImageInChunks_ok_shape (b : Buffer) (o : Options)
    (img : ProcessedImage) (h : processImageInChunks b o = Except.ok img) :
    img.format = "jpeg" ∧ img.quality = 90 ∧ img.chromaSubsampling = "4:4:4" ∧
    img.forceJpeg = true ∧ img.mozjpeg = true ∧ img.density = o.dpi := by
  cases hdec : b.decode with
  | none =>
    simp only [processImageInChunks, hdec] at h
    exact absurd h (by simp)
  | some meta =>
    simp only [processImageInChunks, hdec] at h
    split at h
    · split at h
      · exact absurd h (by simp)
      · split at h
        · exact absurd h (by simp)
        · injection h with h2
          rw [← h2]
          simp [encodeJpegServer]
    · split at h
      · exact absurd h (by simp)
      · injection h with h2
        rw [← h2]
        simp [encodeJpegServer]

/-- Inversion for the Vercel handler pipeline: every successful run carries
quality 95, 4:4:4, forced JPEG, and the requested DPI as density. -/
lemma apiProcess_ok_shape (b : Buffer) (w h dpi : Int) (img : ProcessedImage)
    (hok : apiProcess b w h dpi = Except.ok img) :
    img.format = "jpeg" ∧ img.quality = 95 ∧ img.chromaSubsampling = "4:4:4" ∧
    img.forceJpeg = true ∧ img.mozjpeg = false ∧ img.density = dpi := by
  cases hdec : b.decode with
  | none =>
    simp only [apiProcess, hdec] at hok
    exact absurd hok (by simp)
  | some meta =>
    simp only [apiProcess, hdec] at hok
    split at hok
    · exact absurd hok (by simp)
    · split at hok
      · exact absurd hok (by simp)
      · injection hok with h2
        rw [← h2]
        simp

/-- The DPI option is a pure metadata tag: changing it never changes the
achieved output dimensions of the current pipeline. -/
lemma processImageInChunks_dims_indep (b : Buffer) (wi hi d1 d2 : Int) :
    (processImageInChunks b ⟨wi, hi, d1⟩).map (fun i => (i.width, i.height)) =
    (processImageInChunks b ⟨wi, hi, d2⟩).map (fun i => (i.width, i.height)) := by
  cases hdec : b.decode with
  | none => simp [processImageInChunks, hdec]
  | some meta =>
    simp only [processImageInChunks, hdec]
    split
    · cases hr : sharpResize meta
          ((intermediateDim meta.width (meta.width * meta.height) : Nat) : Int)
          ((intermediateDim meta.height (meta.width * meta.height) : Nat) : Int) with
      | error e => simp [hr]
      | ok inter =>
        cases hr2 : sharpResize inter wi hi with
        | error e => simp [hr, hr2]
        | ok fm => simp [hr, hr2, encodeJpegServer, Except.map]
    · cases hr : sharpResize meta wi hi with
      | error e => simp [hr]
      | ok fm => simp [hr, encodeJpegServer, Except.map]

/-- C6. Every upload whose declared MIME type does not start with `image/`
is rejected by the multer file filter (the typed UnsupportedMediaType
rejection) with HTTP 400 and no decode attempted. -/
theorem mime_rejected_without_decode (f : UploadFile) (qw qh qd : Option Int)
    (hm : jsStartsWith f.mimetype "image/" = false) :
    multer MAX_FILE_SIZE (some f) = MulterOutcome.unsupportedMediaType ∧
    handlerUpscale ⟨some f, qw, qh, qd⟩ =
      { status := 400, errorName := some "Upload failed",
        details := some "Only image files are allowed",
        xWidth := none, xHeight := none, xDpi := none, decodeAttempted := false } := by
  have h1 : multer MAX_FILE_SIZE (some f) = MulterOutcome.unsupportedMediaType := by
    simp [multer, hm]
  exact ⟨h1, by simp only [handlerUpscale, h1]⟩

/-- C6, witness: a buffer declared `text/plain` is rejected 400 without
decode. -/
theorem mime_rejected_without_decode_witness :
    multer MAX_FILE_SIZE (some ⟨⟨10, some ⟨1, 1⟩⟩, "text/plain"⟩) =
      MulterOutcome.unsupportedMediaType ∧
    handlerUpscale ⟨some ⟨⟨10, some ⟨1, 1⟩⟩, "text/plain"⟩, none, none, none⟩ =
      { status := 400, errorName := some "Upload failed",
        details := some "Only image files are allowed",
        xWidth := none, xHeight := none, xDpi := none, decodeAttempted := false } :=
  mime_rejected_without_decode ⟨⟨10, some ⟨1, 1⟩⟩, "text/plain"⟩ none none none
    (by decide)

/-- C7. Every image-typed upload whose buffer exceeds `MAX_FILE_SIZE` is
rejected by the multer size limit (the typed PayloadTooLarge rejection) with
HTTP 400 before any decode, and the rejection message carries the configured
limit (100 MB). -/
theorem oversize_rejected_before_decode (f : UploadFile) (qw qh qd : Option Int)
    (hm : jsStartsWith f.mimetype "image/" = true)
    (hs : MAX_FILE_SIZE < f.buffer.len) :
    multer MAX_FILE_SIZE (some f) = MulterOutcome.payloadTooLarge ∧
    handlerUpscale ⟨some f, qw, qh, qd⟩ =
      { status := 400, errorName := some "File too large",
        details := some ("Maximum file size is " ++
          toString (MAX_FILE_SIZE / (1024 * 1024)) ++ "MB"),
        xWidth := none, xHeight := none, xDpi := none, decodeAttempted := false } := by
  have h1 : multer MAX_FILE_SIZE (some f) = MulterOutcome.payloadTooLarge := by
    simp [multer, hm, hs]
  exact ⟨h1, by simp only [handlerUpscale, h1]⟩

/-- C7, witness: a buffer of exactly `MAX_FILE_SIZE + 1` bytes is rejected
400 with the limit in the message and no decode attempted. -/
theorem oversize_rejected_before_decode_witness :
    multer MAX_FILE_SIZE (some ⟨⟨MAX_FILE_SIZE + 1, some ⟨1, 1⟩⟩, "image/jpeg"⟩) =
      MulterOutcome.payloadTooLarge ∧
    handlerUpscale ⟨some ⟨⟨MAX_FILE_SIZE + 1, some ⟨1, 1⟩⟩, "image/jpeg"⟩,
        none, none, none⟩ =
      { status := 400, errorName := some "File too large",
        details := some ("Maximum file size is " ++
          toString (MAX_FILE_SIZE / (1024 * 1024)) ++ "MB"),
        xWidth := none, xHeight := none, xDpi := none, decodeAttempted := false } :=
  oversize_rejected_before_decode ⟨⟨MAX_FILE_SIZE + 1, some ⟨1, 1⟩⟩, "image/jpeg"⟩
    none none none (by decide) (by decide)

/-- C8. Every successful resize is encoded as a JPEG container with quality
in the 90 to 95 range (90 for the server pipeline, 95 for the Vercel
handler), 4:4:4 chroma subsampling, forced JPEG container, and the requested
DPI attached as metadata; the DPI is a pure tag: changing it does not change
the achieved dimensions. -/
theorem jpeg_encode_contract (b : Buffer) (o : Options) (img : ProcessedImage)
    (b2 : Buffer) (w h dpi dpiAlt : Int) (img2 : ProcessedImage)
    (h1 : processImageInChunks b o = Except.ok img)
    (h2 : apiProcess b2 w h dpi = Except.ok img2) :
    (img.format = "jpeg" ∧ img.forceJpeg = true ∧ 90 ≤ img.quality ∧
      img.quality ≤ 95 ∧ img.chromaSubsampling = "4:4:4" ∧ img.density = o.dpi) ∧
    (img2.format = "jpeg" ∧ img2.forceJpeg = true ∧ 90 ≤ img2.quality ∧
      img2.quality ≤ 95 ∧ img2.chromaSubsampling = "4:4:4" ∧ img2.density = dpi) ∧
    (processImageInChunks b ⟨o.width, o.height, dpiAlt⟩).map
        (fun i => (i.width, i.height)) =
      (processImageInChunks b o).map (fun i => (i.width, i.height)) := by
  obtain ⟨s1, s2, s3, s4, s5, s6⟩ := processImageInChunks_ok_shape b o img h1
  obtain ⟨t1, t2, t3, t4, t5, t6⟩ := apiProcess_ok_shape b2 w h dpi img2 h2
  refine ⟨⟨s1, s4, by rw [s2], by rw [s2]; norm_num, s3, s6⟩,
    ⟨t1, t4, by rw [t2]; norm_num, by rw [t2], t3, t6⟩, ?_⟩
  have := processImageInChunks_dims_indep b o.width o.height dpiAlt o.dpi
  simpa using this

/-- C8, witness: concrete successful runs of both pipelines satisfy the
encode contract, and the dimensions are unchanged under a different DPI. -/
theorem jpeg_encode_contract_witness :
    (sampleServerOut.format = "jpeg" ∧ sampleServerOut.forceJpeg = true ∧
      90 ≤ sampleServerOut.quality ∧ sampleServerOut.quality ≤ 95 ∧
      sampleServerOut.chromaSubsampling = "4:4:4" ∧
      sampleServerOut.density = (⟨7200, 10800, 300⟩ : Options).dpi) ∧
    (sampleApiOut.format = "jpeg" ∧ sampleApiOut.forceJpeg = true ∧
      90 ≤ sampleApiOut.quality ∧ sampleApiOut.quality ≤ 95 ∧
      sampleApiOut.chromaSubsampling = "4:4:4" ∧
      sampleApiOut.density = (300 : Int)) ∧
    (processImageInChunks ⟨10, some ⟨1, 1⟩⟩
        ⟨(⟨7200, 10800, 300⟩ : Options).width,
         (⟨7200, 10800, 300⟩ : Options).height, 72⟩).map
        (fun i => (i.width, i.height)) =
      (processImageInChunks ⟨10, some ⟨1, 1⟩⟩ ⟨7200, 10800, 300⟩).map
        (fun i => (i.width, i.height)) :=
  jpeg_encode_contract ⟨10, some ⟨1, 1⟩⟩ ⟨7200, 10800, 300⟩ sampleServerOut
    ⟨10, some ⟨1, 1⟩⟩ 7200 10800 300 72 sampleApiOut
    (by decide) (by decide)

/-- C9. Two runs of the pipeline on the same buffer and the same target
specification achieve identical declared output dimensions. -/
theorem resize_dims_idempotent (b : Buffer) (o : Options)
    (img1 img2 : ProcessedImage)
    (h1 : processImageInChunks b o = Except.ok img1)
    (h2 : processImageInChunks b o = Except.ok img2) :
    img1.width = img2.width ∧ img1.height = img2.height := by
  rw [h1] at h2
  injection h2 with h
  rw [h]
  exact ⟨rfl, rfl⟩

/-- C9, witness: two concrete runs on a 1 by 1 image with target
7200 by 10800 agree on the achieved dimensions. -/
theorem resize_dims_idempotent_witness :
    sampleServerOut.width = sampleServerOut.width ∧
    sampleServerOut.height = sampleServerOut.height :=
  resize_dims_idempotent ⟨10, some ⟨1, 1⟩⟩ ⟨7200, 10800, 300⟩
    sampleServerOut sampleServerOut (by decide) (by decide)

/-- C10. A width, height or DPI query value parsing to 0 or NaN (`none`) is
silently replaced by its default (7200, 10800 or 300) in the
`parseInt(q, 10) || default` step, and the request proceeds: a valid image
with all three parameters falsy is processed with HTTP 200, not rejected. -/
theorem falsy_params_defaulted (f : UploadFile) (meta : ImageMeta)
    (qw qh qd : Option Int)
    (hm : jsStartsWith f.mimetype "image/" = true)
    (hs : f.buffer.len ≤ MAX_FILE_SIZE)
    (hdec : f.buffer.decode = some meta)
    (hsmall : meta.width * meta.height ≤ MAX_SAFE_PIXELS)
    (hqw : qw = none ∨ qw = some 0) (hqh : qh = none ∨ qh = some 0)
    (hqd : qd = none ∨ qd = some 0) :
    jsOr qw 7200 = 7200 ∧ jsOr qh 10800 = 10800 ∧ jsOr qd 300 = 300 ∧
    (handlerUpscale ⟨some f, qw, qh, qd⟩).status = 200 := by
  have e1 : jsOr qw 7200 = 7200 := by rcases hqw with rfl | rfl <;> simp [jsOr]
  have e2 : jsOr qh 10800 = 10800 := by rcases hqh with rfl | rfl <;> simp [jsOr]
  have e3 : jsOr qd 300 = 300 := by rcases hqd with rfl | rfl <;> simp [jsOr]
  have hm' := multer_accepts MAX_FILE_SIZE f hm hs
  have hw : (0 : Int) < min 10000 (jsOr qw 7200) := by rw [e1]; decide
  have hh : (0 : Int) < min 10000 (jsOr qh 10800) := by rw [e2]; decide
  have hrun := processImageInChunks_direct f.buffer meta
    ⟨min 10000 (jsOr qw 7200), min 10000 (jsOr qh 10800), jsOr qd 300⟩
    hdec hsmall hw hh
  exact ⟨e1, e2, e3, by simp only [handlerUpscale, hm', hrun]⟩

/-- C10, witness: a valid 1 by 1 image with `width=0`, `height=0`, `dpi=0`
is processed with HTTP 200 using the defaults. -/
theorem falsy_params_defaulted_witness :
    jsOr (some 0) 7200 = 7200 ∧ jsOr (some 0) 10800 = 10800 ∧
    jsOr (some 0) 300 = 300 ∧
    (handlerUpscale ⟨some ⟨⟨10, some ⟨1, 1⟩⟩, "image/png"⟩,
        some 0, some 0, some 0⟩).status = 200 :=
  falsy_params_defaulted ⟨⟨10, some ⟨1, 1⟩⟩, "image/png"⟩ ⟨1, 1⟩
    (some 0) (some 0) (some 0)
    (by decide) (by decide) rfl (by decide)
    (Or.inr rfl) (Or.inr rfl) (Or.inr rfl)

end ImageUpscaler
